import Mathlib

/-!
Shallow embedding of the JARVIS session controller from
src/web_gui/src/components/AudioAnalyzer.jsx: the useAudioAnalyzer hook
(lines 3-90) and the JarvisInterface component (lines 99-687).  React
state cells and mutable refs become fields of an explicit state record,
the WebSocket becomes its readyState, timers become recorded scheduling
decisions, times are integer milliseconds (Date.now()), and JavaScript
numbers are rationals.
-/

/-- WebSocket readyState values. -/
inductive ReadyState
  | CONNECTING
  | OPEN
  | CLOSING
  | CLOSED
deriving DecidableEq, Repr

/-- Conversation roles passed to addToConversation. -/
inductive Role
  | user
  | assistant
deriving DecidableEq, Repr

/-- One entry of conversationHistory: role, text, and the Date.now() at which
it was appended (the source stores a locale time string and an id derived from
role, text and Date.now(); the integer timestamp carries that information). -/
structure ConvMessage where
  role : Role
  text : String
  timestamp : Int
deriving DecidableEq, Repr

/-- Contents of lastTextInputRef (line 148): the text of the last appended
conversation message, of either role, and the Date.now() of the append. -/
structure LastTextInput where
  text : String
  timestamp : Int
deriving DecidableEq, Repr

/-- Contents of reconnectTimeoutRef: the attempt field, and whether a timeout
handle is stored (a pending scheduled reconnect).  onopen stores an object
with attempt only (hasTimeout false); onclose and the connect catch store an
object with attempt and a timeout handle (hasTimeout true). -/
structure ReconnectInfo where
  attempt : Nat
  hasTimeout : Bool
deriving DecidableEq, Repr

/-- State of the useAudioAnalyzer hook as the controller observes it. -/
structure AnalyzerState where
  isListening : Bool
  audioLevel : ℚ
deriving DecidableEq, Repr

/-- Outbound protocol messages built by the component. -/
inductive OutMsg
  | enableMic
  | disableMic
  | textInput (text : String)
deriving DecidableEq, Repr

/-- Inbound protocol messages dispatched by handleJarvisMessage, one variant
per recognized value of the type field plus a catch-all. -/
inductive InMsg
  | userText (text : String)
  | assistantStream (text : String)
  | assistantFinal (text : String)
  | modeChange (mode : String) (intensity : Option ℚ)
  | audioLevel (mode : String) (level : ℚ)
  | unknown (ty : String)
deriving DecidableEq, Repr

/-- Calls the controller makes into the audio analyzer hook. -/
inductive AudioCall
  | start
  | stop
deriving DecidableEq, Repr

/-- Outcome of one sendWebSocketMessage call: the value returned to the
caller, the message handed to the socket (none when nothing was sent), and
whether the not-ready warning was logged. -/
structure SendResult where
  returned : Bool
  transmitted : Option OutMsg
  warned : Bool
deriving DecidableEq, Repr

/-- The JarvisInterface component state: its React state cells (mode,
intensity, isConnected, conversationHistory, currentResponse, micEnabled,
isWaitingForResponse, assistantText, userText) and its refs
(lastTextInputRef, reconnectTimeoutRef, isConnectingRef, wsRef, and the
analyzer hook state).  responseRef always mirrors currentResponse in the
source, so a single field models both. -/
structure ControllerState where
  mode : String
  intensity : ℚ
  isConnected : Bool
  conversationHistory : List ConvMessage
  currentResponse : String
  micEnabled : Bool
  isWaitingForResponse : Bool
  assistantText : String
  userText : String
  lastTextInput : Option LastTextInput
  reconnectTimeout : Option ReconnectInfo
  isConnecting : Bool
  ws : Option ReadyState
  analyzer : AnalyzerState
deriving DecidableEq, Repr

/-- Component state at mount (the useState initial values, lines 100-118). -/
def initialState : ControllerState where
  mode := "idle"
  intensity := 1/2
  isConnected := false
  conversationHistory := []
  currentResponse := ""
  micEnabled := false
  isWaitingForResponse := false
  assistantText := ""
  userText := ""
  lastTextInput := none
  reconnectTimeout := none
  isConnecting := false
  ws := none
  analyzer := { isListening := false, audioLevel := 0 }

/-- sendWebSocketMessage (lines 121-128): when the socket exists and its
readyState is OPEN, serialize and send the message and return true; otherwise
log a warning and return false.  The function body contains no throwing
operation outside the guarded send, so it is total. -/
def sendWebSocketMessage (ws : Option ReadyState) (message : OutMsg) : SendResult :=
  if ws = some ReadyState.OPEN then
    { returned := true, transmitted := some message, warned := false }
  else
    { returned := false, transmitted := none, warned := true }

/-- useAudioAnalyzer.startListening (lines 12-39).  The whole body sits inside
try/catch whose catch only logs (line 36-38), so the returned promise always
fulfills, even when microphone acquisition (getUserMedia, line 22) fails;
isListening becomes true only when acquisition succeeds.  The acquisitionOk
argument states whether getUserMedia succeeds. -/
def startListening (acquisitionOk : Bool) (a : AnalyzerState) : AnalyzerState :=
  if acquisitionOk then { a with isListening := true } else a

/-- Whether a startListening call can reject from the caller's point of view:
it cannot, because every failure is caught inside the hook (lines 36-38). -/
def startListeningRejects (acquisitionOk : Bool) : Bool :=
  if acquisitionOk then false else false

/-- useAudioAnalyzer.stopListening (lines 41-58): cancels the frame loop,
disconnects, and resets isListening and audioLevel. -/
def stopListening (a : AnalyzerState) : AnalyzerState :=
  { a with isListening := false, audioLevel := 0 }

/-- addToConversation (lines 146-150): records the text and Date.now() in
lastTextInputRef for every role, and appends the entry to
conversationHistory. -/
def addToConversation (now : Int) (role : Role) (text : String)
    (s : ControllerState) : ControllerState :=
  { s with
      lastTextInput := some { text := text, timestamp := now }
      conversationHistory :=
        s.conversationHistory ++ [{ role := role, text := text, timestamp := now }] }

/-- Duplicate test of the user_text case (line 155): the last recorded text
equals the incoming text and less than 2000 ms have passed since it was
recorded. -/
def isDuplicateUserText (now : Int) (text : String)
    (last : Option LastTextInput) : Bool :=
  match last with
  | some l => l.text == text && decide (now - l.timestamp < 2000)
  | none => false

/-- Models the JavaScript String.prototype.trim used at lines 354-355:
removes whitespace from both ends of the string. -/
def jsTrim (s : String) : String :=
  String.mk ((s.data.dropWhile Char.isWhitespace).reverse.dropWhile Char.isWhitespace).reverse

/-- Models the JavaScript expression `x || d` for an optional numeric field:
yields d when the field is absent or equal to 0 (falsy), else the field. -/
def jsOr (x : Option ℚ) (d : ℚ) : ℚ :=
  match x with
  | some v => if v = 0 then d else v
  | none => d

/-- handleJarvisMessage (lines 152-200).  Returns the updated state and the
list of calls made into the audio analyzer hook; stopListening is synchronous
so its effect is applied to the analyzer state as well, while startListening
is asynchronous and fire-and-forget at lines 180 and 186, so only the call is
recorded. -/
def handleJarvisMessage (now : Int) (data : InMsg) (s : ControllerState) :
    ControllerState × List AudioCall :=
  match data with
  | .userText text =>
      let s1 :=
        if isDuplicateUserText now text s.lastTextInput then s
        else addToConversation now .user text s
      ({ s1 with isWaitingForResponse := true }, [])
  | .assistantStream text =>
      ({ s with
          isWaitingForResponse := false
          currentResponse := s.currentResponse ++ text }, [])
  | .assistantFinal text =>
      let s1 := addToConversation now .assistant text s
      ({ s1 with
          assistantText := text
          currentResponse := ""
          isWaitingForResponse := false
          mode := "idle"
          intensity := 1/2 }, [])
  | .modeChange m i =>
      let s1 := { s with mode := m }
      if m = "listening" then
        ({ s1 with intensity := 3/10 },
         if s1.micEnabled then [AudioCall.start] else [])
      else if m = "speaking" then
        ({ s1 with intensity := jsOr i (4/5), analyzer := stopListening s1.analyzer },
         [AudioCall.stop])
      else if m = "idle" then
        ({ s1 with intensity := 1/2 },
         if s1.micEnabled then [AudioCall.start] else [])
      else
        ({ s1 with intensity := 1/2, analyzer := stopListening s1.analyzer },
         [AudioCall.stop])
  | .audioLevel m level =>
      if m = "speaking" then
        ({ s with intensity := max (3/10) (level * (12/10)) }, [])
      else (s, [])
  | .unknown _ => (s, [])

/-- Attempt count read from reconnectTimeoutRef the way the source reads it:
`reconnectTimeoutRef.current?.attempt || 0`. -/
def attemptOf (r : Option ReconnectInfo) : Nat :=
  match r with
  | some i => i.attempt
  | none => 0

/-- maxReconnectAttempts (line 229). -/
def maxReconnectAttempts : Nat := 20

/-- Outcome of one connectToJarvis call: the resulting state, whether a new
WebSocket object was constructed, and the delay of a reconnect scheduled by
the catch path, when one was. -/
structure ConnectResult where
  state : ControllerState
  createdSocket : Bool
  scheduledDelay : Option ℚ
deriving DecidableEq, Repr

/-- connectToJarvis (lines 208-326).  Lines 209-213 unconditionally clear any
pending reconnect timeout and null reconnectTimeoutRef; line 216 is the
in-flight guard; line 222 the already-open guard; line 230 the attempt-cap
guard (tested against the ref that was just nulled); the try constructs the
socket, and the catch (taken when the constructor throws, modelled by
ctorThrows) schedules a reconnect with the 5000-based backoff. -/
def connectToJarvis (ctorThrows : Bool) (s : ControllerState) : ConnectResult :=
  let s0 := { s with reconnectTimeout := none }
  if s0.isConnecting || s0.ws = some ReadyState.CONNECTING then
    { state := s0, createdSocket := false, scheduledDelay := none }
  else if s0.ws = some ReadyState.OPEN then
    { state := { s0 with isConnected := true }, createdSocket := false,
      scheduledDelay := none }
  else if s0.reconnectTimeout.isSome
      && decide (attemptOf s0.reconnectTimeout ≥ maxReconnectAttempts) then
    { state := s0, createdSocket := false, scheduledDelay := none }
  else if ctorThrows then
    let s1 := { s0 with isConnecting := false, isConnected := false }
    if s1.reconnectTimeout.isNone
        || decide (attemptOf s1.reconnectTimeout < maxReconnectAttempts) then
      { state := { s1 with
          reconnectTimeout :=
            some { attempt := attemptOf s1.reconnectTimeout + 1, hasTimeout := true } },
        createdSocket := false,
        scheduledDelay :=
          some (min (5000 * (3/2 : ℚ) ^ attemptOf s1.reconnectTimeout) 60000) }
    else
      { state := s1, createdSocket := false, scheduledDelay := none }
  else
    { state := { s0 with isConnecting := true, ws := some ReadyState.CONNECTING },
      createdSocket := true, scheduledDelay := none }

/-- ws.onopen handler (lines 240-256): the socket is now OPEN, the connecting
flag clears, the connected flag sets, and reconnectTimeoutRef is reset to an
object with attempt 0 and no timeout handle.  The delayed mic-state message
of line 248 is independent of the claims modelled here. -/
def wsOnOpen (s : ControllerState) : ControllerState :=
  { s with
      isConnecting := false
      isConnected := true
      ws := some ReadyState.OPEN
      reconnectTimeout := some { attempt := 0, hasTimeout := false } }

/-- Outcome of one ws.onclose dispatch: the resulting state and the delay of
the reconnect it scheduled, when it scheduled one. -/
structure CloseResult where
  state : ControllerState
  scheduledDelay : Option ℚ
deriving DecidableEq, Repr

/-- ws.onclose handler (lines 265-291): the socket is CLOSED, the connecting
and connected flags clear; when the close was not clean, a reconnect is
scheduled after min(10000 * 1.5 ^ attempt, 120000) ms, where attempt is read
as `reconnectTimeoutRef.current?.attempt || 0`, and the ref is replaced by an
object carrying attempt + 1 and the new timeout handle.  There is no
attempt-cap test on this path. -/
def wsOnClose (wasClean : Bool) (s : ControllerState) : CloseResult :=
  let s1 := { s with
      isConnecting := false
      isConnected := false
      ws := some ReadyState.CLOSED }
  if wasClean then
    { state := s1, scheduledDelay := none }
  else
    { state := { s1 with
        reconnectTimeout :=
          some { attempt := attemptOf s1.reconnectTimeout + 1, hasTimeout := true } },
      scheduledDelay :=
        some (min (10000 * (3/2 : ℚ) ^ attemptOf s1.reconnectTimeout) 120000) }

/-- sendTextMessage (lines 353-362): when the trimmed input is non-empty and
the connected flag is set, append the trimmed text as a user turn, set the
awaiting flag, hand a text_input message to sendWebSocketMessage and clear
the input field.  Returns the send call outcome when one was made. -/
def sendTextMessage (now : Int) (s : ControllerState) :
    ControllerState × Option SendResult :=
  if jsTrim s.userText ≠ "" ∧ s.isConnected = true then
    let message := jsTrim s.userText
    let s1 := addToConversation now .user message s
    let s2 := { s1 with isWaitingForResponse := true }
    let r := sendWebSocketMessage s2.ws (OutMsg.textInput message)
    ({ s2 with userText := "" }, some r)
  else (s, none)

/-- toggleMicrophone (lines 364-380).  When the microphone is disabled, the
code awaits startListening — whose promise always fulfills (see
startListening), so the catch at line 371 is unreachable — then marks the
microphone enabled and hands an enable_mic message to sendWebSocketMessage;
when enabled, it stops listening, marks disabled and hands over disable_mic.
Returns the updated state and the messages handed to sendWebSocketMessage. -/
def toggleMicrophone (acquisitionOk : Bool) (s : ControllerState) :
    ControllerState × List OutMsg :=
  if s.micEnabled = false then
    if startListeningRejects acquisitionOk then (s, [])
    else
      ({ s with analyzer := startListening acquisitionOk s.analyzer, micEnabled := true },
       [OutMsg.enableMic])
  else
    ({ s with analyzer := stopListening s.analyzer, micEnabled := false },
     [OutMsg.disableMic])

/-- clearConversation (lines 382-386). -/
def clearConversation (s : ControllerState) : ControllerState :=
  { s with conversationHistory := [], currentResponse := "" }

/-- One failed-connection cycle as the scheduler executes it: the pending
timer fires connectToJarvis, the constructed socket fails to connect and
closes uncleanly, which schedules the next reconnect. -/
def failCycle (s : ControllerState) : CloseResult :=
  wsOnClose false (connectToJarvis false s).state

/-- Controller state after n failed-connection cycles starting at mount. -/
def stateAfterCloses : Nat → ControllerState
  | 0 => initialState
  | n + 1 => (failCycle (stateAfterCloses n)).state

/-- Delay of the nth reconnect scheduled by an unclean close in the run that
starts at mount and never reaches the backend. -/
def nthReconnectDelay : Nat → Option ℚ
  | 0 => none
  | n + 1 => (failCycle (stateAfterCloses n)).scheduledDelay

/-- State whose stored reconnect attempt count has reached the maximum of 20,
with the socket closed and no connect in flight. -/
def c1CapState : ControllerState :=
  { initialState with
      reconnectTimeout := some { attempt := 20, hasTimeout := false }
      ws := some ReadyState.CLOSED }

/-- C1: the attempt cap is never enforced.  Every unclean close schedules a
reconnect whatever the stored attempt count, because the onclose handler has
no cap test; and even from a state whose stored attempt count is 20, a
connectToJarvis call still constructs a socket — the cap test at line 230 is
dead because lines 210-213 null reconnectTimeoutRef first — after which the
unclean close schedules a further reconnect with the counter reset to 1. -/
theorem C1_cap_never_enforced :
    (∀ s : ControllerState, ((wsOnClose false s).scheduledDelay).isSome = true) ∧
    (connectToJarvis false c1CapState).createdSocket = true ∧
    ((failCycle c1CapState).scheduledDelay).isSome = true ∧
    ((failCycle c1CapState).state).reconnectTimeout =
      some { attempt := 1, hasTimeout := true } := by
  refine ⟨fun s => rfl, rfl, rfl, rfl⟩

/-- Whatever state connectToJarvis is entered in, when the socket constructor
does not throw it leaves reconnectTimeoutRef null in every branch, because
lines 210-213 null the ref before anything else and only the catch path
repopulates it. -/
theorem connect_clears_ref (s : ControllerState) :
    ((connectToJarvis false s).state).reconnectTimeout = none := by
  simp only [connectToJarvis]
  repeat' split
  any_goals rfl
  all_goals exact absurd (by assumption : false = true) (by decide)

/-- C2: in the run that starts at mount and never reaches the backend, every
reconnect scheduled by an unclean close uses delay 10000 ms, because each
connectToJarvis entry nulls reconnectTimeoutRef so the attempt count read at
close time is always 0; the claim instead requires the Nth delay to be
min(10000 * 1.5^(N-1), 120000) ms, which is 15000 ms at N = 2. -/
theorem C2_delay_never_grows :
    (∀ n : ℕ, nthReconnectDelay (n + 1) = some 10000) ∧
    min (10000 * (3/2 : ℚ) ^ (1:ℕ)) 120000 = 15000 ∧
    (10000 : ℚ) ≠ 15000 := by
  refine ⟨fun n => ?_, by norm_num, by norm_num⟩
  show (wsOnClose false (connectToJarvis false (stateAfterCloses n)).state).scheduledDelay
      = some 10000
  have h := connect_clears_ref (stateAfterCloses n)
  simp [wsOnClose, h, attemptOf]
  norm_num

/-- State with the controller in listening mode, as left by a
mode_change listening event: intensity 3/10. -/
def c3ListeningState : ControllerState :=
  { initialState with mode := "listening", intensity := 3/10 }

/-- C3 counterexample: with the controller's current mode listening, an
inbound audio_level event whose payload carries mode speaking and level 0.9
changes intensity to max(0.3, 0.9 * 1.2) = 27/25, although the controller's
current mode is not speaking; the claim says the event would leave intensity
unchanged. -/
theorem C3_counterexample :
    c3ListeningState.mode ≠ "speaking" ∧
    ((handleJarvisMessage 0 (InMsg.audioLevel "speaking" (9/10)) c3ListeningState).1).intensity
      ≠ c3ListeningState.intensity := by
  refine ⟨by decide, ?_⟩
  show max ((3:ℚ)/10) ((9/10) * (12/10)) ≠ 3/10
  rw [max_eq_right (by norm_num)]
  norm_num

/-- C3 amended: audio_level is gated on the mode field of its own payload,
not on the controller's current mode: when the payload mode is speaking the
event sets intensity to max(0.3, level * 1.2) whatever the controller's mode,
and otherwise it leaves the state unchanged. -/
theorem C3_audio_level_payload_gated (now : Int) (m : String) (level : ℚ)
    (s : ControllerState) :
    handleJarvisMessage now (InMsg.audioLevel m level) s =
      (if m = "speaking" then { s with intensity := max (3/10) (level * (12/10)) }
       else s, []) := by
  by_cases h : m = "speaking" <;> simp [handleJarvisMessage, h]

/-- C4: microphone acquisition failure does not stop the toggle.
startListening never rejects because its catch swallows the failure, so
toggling from the disabled initial state with failing acquisition still marks
the microphone enabled and still hands enable_mic to the send helper — while
the monitor is not actually listening — contrary to the claim and to the
intent of the try/catch at lines 366-373. -/
theorem C4_toggle_enables_despite_failure :
    (∀ acquisitionOk : Bool, startListeningRejects acquisitionOk = false) ∧
    initialState.micEnabled = false ∧
    ((toggleMicrophone false initialState).1).micEnabled = true ∧
    (toggleMicrophone false initialState).2 = [OutMsg.enableMic] ∧
    ((toggleMicrophone false initialState).1).analyzer.isListening = false := by
  refine ⟨fun ok => ?_, rfl, rfl, rfl, rfl⟩
  cases ok <;> rfl

/-- Conversation state in which the immediately preceding user message is
"hi" at time 0 and an assistant message "yo" was appended after it at time
100; lastTextInputRef therefore holds the assistant entry. -/
def c5State : ControllerState :=
  addToConversation 100 Role.assistant "yo"
    (addToConversation 0 Role.user "hi" initialState)

/-- C5 counterexample: an inbound user_text "hi" at time 500 has the same
text as the immediately preceding user message ("hi" at time 0, well within
2000 ms), yet the handler appends a third entry, because the duplicate check
compares against lastTextInputRef, which the later assistant append
overwrote; the claim says no entry would be appended. -/
theorem C5_counterexample :
    c5State.conversationHistory =
      [{ role := Role.user, text := "hi", timestamp := 0 },
       { role := Role.assistant, text := "yo", timestamp := 100 }] ∧
    ((500:Int) - 0) < 2000 ∧
    ((handleJarvisMessage 500 (InMsg.userText "hi") c5State).1).conversationHistory =
      [{ role := Role.user, text := "hi", timestamp := 0 },
       { role := Role.assistant, text := "yo", timestamp := 100 },
       { role := Role.user, text := "hi", timestamp := 500 }] := by
  refine ⟨rfl, by decide, rfl⟩

/-- C5 amended: inbound user_text suppresses its append exactly when the
incoming text equals the text recorded in lastTextInputRef — the most
recently appended conversation message of either role — and arrives within
2000 ms of that append; otherwise it appends a user entry; the
awaiting-response flag is set either way. -/
theorem C5_user_text_dedup (now : Int) (text : String) (s : ControllerState) :
    ((handleJarvisMessage now (InMsg.userText text) s).1).isWaitingForResponse = true ∧
    ((handleJarvisMessage now (InMsg.userText text) s).1).conversationHistory =
      (if isDuplicateUserText now text s.lastTextInput then s.conversationHistory
       else s.conversationHistory ++
         [{ role := Role.user, text := text, timestamp := now }]) ∧
    (handleJarvisMessage now (InMsg.userText text) s).2 = [] := by
  by_cases h : isDuplicateUserText now text s.lastTextInput = true <;>
    simp [handleJarvisMessage, addToConversation, h]

/-- C6 counterexample: a mode_change to speaking whose payload carries
intensity 0 sets intensity to 4/5, because the JavaScript expression
`data.intensity || 0.8` treats 0 as falsy; the claim prescribes the payload
intensity (0) whenever the field is present. -/
theorem C6_counterexample :
    ((handleJarvisMessage 0 (InMsg.modeChange "speaking" (some 0)) initialState).1).intensity
        = 4/5 ∧
    (4:ℚ)/5 ≠ 0 := by
  refine ⟨?_, by norm_num⟩
  show jsOr (some 0) (4/5) = 4/5
  simp [jsOr]

/-- C6 amended: after each mode_change the mode equals the payload mode and
intensity equals the mode default — 3/10 for listening, for speaking the
payload intensity unless it is absent or 0 (JavaScript falsy) in which case
4/5, and 1/2 for idle and for any other mode; the handler calls start on the
audio monitor only when the new mode is listening or idle and the microphone
is user-enabled, and calls stop (leaving the monitor not listening) for
speaking and for every unrecognized mode. -/
theorem C6_mode_change (now : Int) (m : String) (i : Option ℚ) (s : ControllerState) :
    ((handleJarvisMessage now (InMsg.modeChange m i) s).1).mode = m ∧
    ((handleJarvisMessage now (InMsg.modeChange m i) s).1).intensity =
      (if m = "listening" then 3/10
       else if m = "speaking" then jsOr i (4/5)
       else 1/2) ∧
    (handleJarvisMessage now (InMsg.modeChange m i) s).2 =
      (if m = "listening" ∨ m = "idle" then
        (if s.micEnabled then [AudioCall.start] else [])
       else [AudioCall.stop]) ∧
    ((handleJarvisMessage now (InMsg.modeChange m i) s).1).analyzer.isListening =
      (if m = "listening" ∨ m = "idle" then s.analyzer.isListening else false) := by
  by_cases h1 : m = "listening"
  · subst h1; simp [handleJarvisMessage]
  · by_cases h2 : m = "speaking"
    · subst h2; simp [handleJarvisMessage, stopListening]
    · by_cases h3 : m = "idle"
      · subst h3; simp [handleJarvisMessage]
      · simp [handleJarvisMessage, stopListening, h1, h2, h3]

/-- Controller state after receiving assistant_stream "Hel" and then
assistant_stream "lo": the streaming buffer holds "Hello". -/
def c7StreamedState : ControllerState :=
  (handleJarvisMessage 0 (InMsg.assistantStream "lo")
    (handleJarvisMessage 0 (InMsg.assistantStream "Hel") initialState).1).1

/-- C7 counterexample: after streaming "Hel" then "lo" the buffer holds
"Hello", but an assistant_final carrying text "Bye" appends "Bye" — the
final payload text — as the assistant conversation entry, not the buffered
response "Hello" that the claim says is finalized. -/
theorem C7_counterexample :
    c7StreamedState.currentResponse = "Hello" ∧
    ((handleJarvisMessage 1 (InMsg.assistantFinal "Bye") c7StreamedState).1).conversationHistory =
      [{ role := Role.assistant, text := "Bye", timestamp := 1 }] ∧
    "Bye" ≠ "Hello" := by
  refine ⟨by decide, by decide, by decide⟩

/-- C7 amended: assistant_stream concatenates its text onto the streaming
buffer in arrival order and clears the awaiting flag; assistant_final appends
the final payload text — which equals the buffered response exactly when the
backend sends the concatenation of its stream chunks — as one assistant
conversation entry, clears the buffer, and resets mode to idle with its
default intensity 1/2. -/
theorem C7_stream_final (now : Int) (text : String) (s : ControllerState) :
    (handleJarvisMessage now (InMsg.assistantStream text) s).1 =
      { s with
          isWaitingForResponse := false
          currentResponse := s.currentResponse ++ text } ∧
    (handleJarvisMessage now (InMsg.assistantFinal text) s).1 =
      { s with
          assistantText := text
          conversationHistory := s.conversationHistory ++
            [{ role := Role.assistant, text := text, timestamp := now }]
          lastTextInput := some { text := text, timestamp := now }
          currentResponse := ""
          isWaitingForResponse := false
          mode := "idle"
          intensity := 1/2 } := by
  exact ⟨rfl, rfl⟩

/-- Reachable open-connection state: the mount state after connectToJarvis
constructs the socket and onopen fires. -/
def c8OpenState : ControllerState :=
  wsOnOpen (connectToJarvis false initialState).state

/-- Reachable in-flight state: the mount state right after connectToJarvis
constructs the socket, which is still CONNECTING. -/
def c8InFlightState : ControllerState :=
  (connectToJarvis false initialState).state

/-- C8 counterexample: calling connect while the connection is open creates
no second socket, but it does not leave the controller state unchanged: the
entry code of lines 210-213 nulls reconnectTimeoutRef, which onopen had set
to an attempt record. -/
theorem C8_counterexample :
    c8OpenState.ws = some ReadyState.OPEN ∧
    (connectToJarvis false c8OpenState).createdSocket = false ∧
    c8OpenState.reconnectTimeout = some { attempt := 0, hasTimeout := false } ∧
    ((connectToJarvis false c8OpenState).state).reconnectTimeout = none ∧
    (connectToJarvis false c8OpenState).state ≠ c8OpenState := by
  refine ⟨rfl, rfl, rfl, rfl, fun h => ?_⟩
  exact absurd (congrArg ControllerState.reconnectTimeout h) (by decide)

/-- C8 amended: connect called while a connect attempt is in flight or the
connection is already open constructs no second socket and schedules nothing,
so at most one socket exists; the entry does cancel and null any pending
reconnect-timer record, and when the socket is already open the connected
flag is re-asserted; every other field is unchanged. -/
theorem C8_connect_noop (ctorThrows : Bool) (s : ControllerState)
    (h : s.isConnecting = true ∨ s.ws = some ReadyState.CONNECTING ∨
      s.ws = some ReadyState.OPEN) :
    connectToJarvis ctorThrows s =
      { state :=
          { s with
              reconnectTimeout := none
              isConnected :=
                if s.isConnecting = false ∧ s.ws = some ReadyState.OPEN then true
                else s.isConnected }
        createdSocket := false
        scheduledDelay := none } := by
  rcases h with h | h | h
  · simp [connectToJarvis, h]
  · simp [connectToJarvis, h]
  · cases hc : s.isConnecting
    · simp [connectToJarvis, h, hc]
    · simp [connectToJarvis, h, hc]

/-- Witness for C8_connect_noop at the reachable in-flight state. -/
theorem C8_connect_noop_witness :
    connectToJarvis false c8InFlightState =
      { state :=
          { c8InFlightState with
              reconnectTimeout := none
              isConnected :=
                if c8InFlightState.isConnecting = false ∧
                    c8InFlightState.ws = some ReadyState.OPEN then true
                else c8InFlightState.isConnected }
        createdSocket := false
        scheduledDelay := none } :=
  C8_connect_noop false c8InFlightState (Or.inl rfl)

/-- C9: sendWebSocketMessage while the connection state is not open returns
false, logs the warning and hands nothing to the socket (the embedded
function is total, mirroring that the source path throws nothing); when the
connection is open it hands the message to the socket and returns true. -/
theorem C9_send_guard (ws : Option ReadyState) (message : OutMsg) :
    (ws ≠ some ReadyState.OPEN →
      sendWebSocketMessage ws message =
        { returned := false, transmitted := none, warned := true }) ∧
    (ws = some ReadyState.OPEN →
      sendWebSocketMessage ws message =
        { returned := true, transmitted := some message, warned := false }) := by
  constructor
  · intro h; simp [sendWebSocketMessage, h]
  · intro h; simp [sendWebSocketMessage, h]

/-- Witness for C9_send_guard on a closed socket. -/
theorem C9_send_guard_witness :
    sendWebSocketMessage (some ReadyState.CLOSED) OutMsg.enableMic =
      { returned := false, transmitted := none, warned := true } :=
  (C9_send_guard (some ReadyState.CLOSED) OutMsg.enableMic).1 (by decide)

/-- C10: the duplicate check of inbound user_text compares against the most
recently appended conversation message of either role, because
addToConversation updates lastTextInputRef for every role: an inbound
user_text repeating a locally sent trimmed text within 2000 ms appends
nothing, and one repeating an assistant message appended within 2000 ms is
suppressed just the same. -/
theorem C10_dedup_any_role (s : ControllerState) (t tArr : Int) (text : String)
    (role : Role) (hwin : tArr - t < 2000) :
    (s.isConnected = true → jsTrim s.userText ≠ "" →
      ((handleJarvisMessage tArr (InMsg.userText (jsTrim s.userText))
          (sendTextMessage t s).1).1).conversationHistory
        = ((sendTextMessage t s).1).conversationHistory) ∧
    ((handleJarvisMessage tArr (InMsg.userText text)
        (addToConversation t role text s)).1).conversationHistory
      = (addToConversation t role text s).conversationHistory := by
  constructor
  · intro hconn hne
    simp [sendTextMessage, hconn, hne, addToConversation, handleJarvisMessage,
      isDuplicateUserText, hwin]
  · simp [addToConversation, handleJarvisMessage, isDuplicateUserText, hwin]

/-- State with a pending non-blank input and a connected session. -/
def c10WitnessState : ControllerState :=
  { initialState with userText := " hi ", isConnected := true, ws := some ReadyState.OPEN }

/-- Witness for C10_dedup_any_role: the locally sent text "hi" arriving back
as user_text 500 ms later appends nothing. -/
theorem C10_dedup_any_role_witness :
    ((handleJarvisMessage 500 (InMsg.userText (jsTrim c10WitnessState.userText))
        (sendTextMessage 0 c10WitnessState).1).1).conversationHistory
      = ((sendTextMessage 0 c10WitnessState).1).conversationHistory :=
  (C10_dedup_any_role c10WitnessState 0 500 "x" Role.assistant (by decide)).1 rfl (by decide)
